import Mathlib

/-!
Verification of the AQUAFace-Streamlit scoring and verification engine.

The definitions below are a shallow embedding of `src/models/face_verifier.py`
(`AQUAFaceVerifier.compute_image_quality`, `AQUAFaceVerifier.verify`) and of
`src/utils/quality_metrics.py` (`compute_quality_metrics`).  Python floats are
modelled as exact rationals (`ℚ`); where numpy's IEEE behaviour matters
(division of a positive value by zero produces +infinity, not an exception)
the model records it explicitly with an `Option ℚ` whose `none` stands for
+infinity.  Images enter the engine only through the outputs of the external
cv2 calls, so an image is modelled by its grayscale intensity buffer and its
Laplacian filter response, plus a flag recording whether cv2 raised on the
buffer (the code catches that case locally and substitutes defaults).
External face detection/embedding (`extract_embedding`) is modelled by its
outcome: `Option (List ℚ)`, where `none` means no face was detected — the
source function returns `(None, False)` on zero detections or any internal
exception, and `(embedding, True)` otherwise, so the embedding being absent
and the detected flag being false always coincide.
-/

/-- Mean of a list of rationals, as numpy's `ndarray.mean()`:
sum divided by length (the empty case never reaches the engine;
rational division by zero yields 0 here). -/
def listMean (xs : List ℚ) : ℚ := xs.sum / (xs.length : ℚ)

/-- Population variance of a list of rationals, as numpy's `ndarray.var()`:
mean of squared deviations from the mean. -/
def listVar (xs : List ℚ) : ℚ :=
  ((xs.map (fun x => (x - listMean xs) ^ 2)).sum) / (xs.length : ℚ)

/-- An image as the engine sees it: the grayscale intensity buffer produced
by `cv2.cvtColor`, the response of `cv2.Laplacian` on it, and a flag telling
whether cv2 raised on this buffer (malformed image). -/
structure GrayImage where
  gray : List ℚ
  lap : List ℚ
  cvFault : Bool
deriving Repr, DecidableEq

/-- Embedding of `AQUAFaceVerifier.compute_image_quality`: returns the pair
(sharpness, brightness).  Sharpness is the Laplacian variance divided by the
reference constant 1000 and capped at 1; brightness is the mean intensity
divided by 255.  An internal cv2 failure is caught and replaced by the
defaults (0, 0.5). -/
def compute_image_quality (img : GrayImage) : ℚ × ℚ :=
  if img.cvFault then (0, 0.5)
  else (min 1 (listVar img.lap / 1000), listMean img.gray / 255)

/-- Per-image quality record stored in the result dict of `verify`. -/
structure QualityRecord where
  overall : ℚ
  sharpness : ℚ
  brightness : ℚ
  face_detected : Bool
deriving Repr, DecidableEq

/-- The quality record the `results` dict is initialised with. -/
def defaultQuality : QualityRecord :=
  { overall := 0, sharpness := 0, brightness := 0, face_detected := false }

/-- The result dict of `AQUAFaceVerifier.verify`. -/
structure VerificationResult where
  error : Bool
  error_message : String
  verdict : Bool
  confidence : ℚ
  baseline_similarity : ℚ
  quality_weighted_similarity : ℚ
  quality_a : QualityRecord
  quality_b : QualityRecord
deriving Repr, DecidableEq

/-- The initial `results` dict built at the top of `verify`. -/
def baseResults : VerificationResult :=
  { error := false, error_message := "", verdict := false, confidence := 0,
    baseline_similarity := 0, quality_weighted_similarity := 0,
    quality_a := defaultQuality, quality_b := defaultQuality }

/-- Message selection of the no-face branch of `verify`: Image A if face A
was not detected, else Image B if face B was not detected, else the
one-or-both message. -/
def noFaceMessage (face_a_detected face_b_detected : Bool) : String :=
  if !face_a_detected then "❌ No face detected in Image A"
  else if !face_b_detected then "❌ No face detected in Image B"
  else "❌ No faces detected in one or both images"

/-- Dot product of two rational vectors. -/
def dotProd (a b : List ℚ) : ℚ := (List.zipWith (fun x y => x * y) a b).sum

/-- Embedding of `np.dot` on two 1-D vectors: raises (returns an error) when
the shapes differ, otherwise the dot product. -/
def npDot (a b : List ℚ) : Except String ℚ :=
  if a.length = b.length then Except.ok (dotProd a b)
  else Except.error "shapes not aligned"

/-- Overall quality assigned to image A in `verify`:
`quality_a = sharp_a * bright_b` — the sharpness of A times the brightness
of B, exactly as in the source (lines 133-134 of face_verifier.py). -/
def qualityOverallA (imgA imgB : GrayImage) : ℚ :=
  (compute_image_quality imgA).1 * (compute_image_quality imgB).2

/-- Overall quality assigned to image B in `verify`:
`quality_b = sharp_b * bright_b`. -/
def qualityOverallB (imgB : GrayImage) : ℚ :=
  (compute_image_quality imgB).1 * (compute_image_quality imgB).2

/-- The fusion step of `verify` (lines 155-160): multiply the baseline by the
minimum of the two overall qualities when weighting is enabled, otherwise
return the baseline unchanged. -/
def fuse (baseline quality_a quality_b : ℚ) (use_quality_weighting : Bool) : ℚ :=
  if use_quality_weighting then baseline * min quality_a quality_b
  else baseline

/-- The numpy value of `(x / t) * 100` on the code path where `x > 0` holds:
`none` stands for +infinity, produced by IEEE division of a positive float
by zero; otherwise the exact rational. -/
def ratioTimes100 (x t : ℚ) : Option ℚ :=
  if t = 0 then none else some (x / t * 100)

/-- The clamp `min(100.0, max(0.0, c))` of `verify`, where `c` may be
+infinity (`none`): Python's min/max map +infinity to 100. -/
def clampConfidence : Option ℚ → ℚ
  | none => 100
  | some c => min 100 (max 0 c)

/-- Embedding of `AQUAFaceVerifier.verify`.  `embA`/`embB` are the outcomes
of the external `extract_embedding` calls (`none` = no face detected; the
source's embedding-is-None and face-not-detected conditions coincide).  The
only statement inside the `try` block that can raise after the detection
check is the `np.dot` shape check; on that exception the `except` branch
returns the `results` dict as mutated so far, with `error` set and the
message of the caught exception appended. -/
def verify (imgA imgB : GrayImage) (embA embB : Option (List ℚ))
    (use_quality_weighting : Bool) (threshold : ℚ) : VerificationResult :=
  match embA, embB with
  | some ea, some eb =>
    let sb := compute_image_quality imgA
    let sb2 := compute_image_quality imgB
    let sharp_a := sb.1
    let bright_a := sb.2
    let sharp_b := sb2.1
    let bright_b := sb2.2
    let quality_a := sharp_a * bright_b
    let quality_b := sharp_b * bright_b
    let qa : QualityRecord :=
      { overall := quality_a, sharpness := sharp_a, brightness := bright_a,
        face_detected := true }
    let qb : QualityRecord :=
      { overall := quality_b, sharpness := sharp_b, brightness := bright_b,
        face_detected := true }
    match npDot ea eb with
    | Except.error e =>
      { baseResults with
        quality_a := qa, quality_b := qb,
        error := true,
        error_message := "Error during verification: " ++ e }
    | Except.ok baseline_sim =>
      let quality_weighted_sim := fuse baseline_sim quality_a quality_b use_quality_weighting
      let decision_score :=
        if use_quality_weighting then quality_weighted_sim else baseline_sim
      let verdict := decide (decision_score > threshold)
      let confidence_raw : Option ℚ :=
        if use_quality_weighting then
          if quality_weighted_sim > 0 then ratioTimes100 quality_weighted_sim threshold
          else some 0
        else
          if baseline_sim > 0 then ratioTimes100 baseline_sim threshold
          else some 0
      let confidence := clampConfidence confidence_raw
      { error := false, error_message := "",
        verdict := verdict, confidence := confidence,
        baseline_similarity := baseline_sim,
        quality_weighted_similarity := quality_weighted_sim,
        quality_a := qa, quality_b := qb }
  | _, _ =>
    { baseResults with
      error := true,
      error_message := noFaceMessage embA.isSome embB.isSome }

/-- Embedding of `compute_quality_metrics` from `src/utils/quality_metrics.py`.
`std` is the value of `gray.std()`, passed as a parameter because the square
root of the variance is in general not rational; `cvFault` records whether
cv2/numpy raised on the buffer, in which case the source substitutes the
documented defaults. -/
structure QualityMetrics where
  sharpness : ℚ
  brightness : ℚ
  contrast : ℚ
  overall_quality : ℚ
deriving Repr, DecidableEq

/-- The body of `compute_quality_metrics`: sharpness, brightness, contrast,
and the clamped weighted combination 0.5/0.3/0.2. -/
def compute_quality_metrics (gray lap : List ℚ) (std : ℚ) (cvFault : Bool) :
    QualityMetrics :=
  if cvFault then
    { sharpness := 0, brightness := 0.5, contrast := 0, overall_quality := 0 }
  else
    let sharpness := min 1 (listVar lap / 1000)
    let brightness := listMean gray / 255
    let contrast := std / 255
    let quality_score := sharpness * 0.5 + brightness * 0.3 + contrast * 0.2
    { sharpness := sharpness, brightness := brightness, contrast := contrast,
      overall_quality := min 1 (max 0 quality_score) }

/-! Concrete inputs used by scenario evaluations, counterexamples and
witnesses.  Each image is given by its grayscale buffer and Laplacian
response: `imgSharpBright` has sharpness 1 and brightness 1,
`imgDullDark` has sharpness 0 and brightness 1/5, `imgBrightFlat` has
sharpness 0 and brightness 1, and `imgPlain` has sharpness 0 and
brightness 20/51. -/

def imgSharpBright : GrayImage := { gray := [255], lap := [100, -100], cvFault := false }

def imgDullDark : GrayImage := { gray := [51], lap := [0], cvFault := false }

def imgBrightFlat : GrayImage := { gray := [255], lap := [0], cvFault := false }

def imgPlain : GrayImage := { gray := [100], lap := [0], cvFault := false }

/-- The variance of a list of rationals is nonnegative. -/
theorem listVar_nonneg (xs : List ℚ) : 0 ≤ listVar xs := by
  unfold listVar
  refine div_nonneg (List.sum_nonneg ?_) (Nat.cast_nonneg _)
  intro x hx
  obtain ⟨y, _, rfl⟩ := List.mem_map.mp hx
  positivity

/-- The mean of a list of nonnegative rationals is nonnegative. -/
theorem listMean_nonneg (xs : List ℚ) (h : ∀ x ∈ xs, 0 ≤ x) : 0 ≤ listMean xs :=
  div_nonneg (List.sum_nonneg h) (Nat.cast_nonneg _)

/-- The mean of a list is at most any nonnegative upper bound of its
elements (the empty list has mean 0 here). -/
theorem listMean_le (xs : List ℚ) (c : ℚ) (hc : 0 ≤ c) (h : ∀ x ∈ xs, x ≤ c) :
    listMean xs ≤ c := by
  rcases xs with _ | ⟨y, ys⟩
  · simpa [listMean] using hc
  · have hsum := List.sum_le_card_nsmul (y :: ys) c h
    rw [nsmul_eq_mul] at hsum
    have hlen : (0 : ℚ) < ((y :: ys).length : ℚ) := by
      simp
      positivity
    rw [listMean, div_le_iff₀ hlen]
    linarith [hsum]

/-- C1.  The fusion step of `verify`: on every successful result, the stored
quality-weighted similarity equals the stored baseline similarity unchanged
when quality weighting is disabled, and equals the baseline times the minimum
of the two stored overall quality scores when it is enabled. -/
theorem fusion_step_of_verify (imgA imgB : GrayImage) (embA embB : Option (List ℚ))
    (w : Bool) (t : ℚ)
    (h : (verify imgA imgB embA embB w t).error = false) :
    (verify imgA imgB embA embB w t).quality_weighted_similarity =
      if w then
        (verify imgA imgB embA embB w t).baseline_similarity *
          min (verify imgA imgB embA embB w t).quality_a.overall
            (verify imgA imgB embA embB w t).quality_b.overall
      else (verify imgA imgB embA embB w t).baseline_similarity := by
  cases embA with
  | none => simp [verify] at h
  | some ea =>
    cases embB with
    | none => simp [verify] at h
    | some eb =>
      cases hdot : npDot ea eb with
      | error e => simp [verify, hdot] at h
      | ok b => cases w <;> simp [verify, hdot, fuse]

/-- C1 witness: at a concrete successful request with weighting disabled
the quality-weighted similarity equals the baseline 3/10. -/
theorem fusion_step_of_verify_witness :
    (verify imgPlain imgPlain (some [3/10]) (some [1]) false (1/2)).quality_weighted_similarity =
      (verify imgPlain imgPlain (some [3/10]) (some [1]) false (1/2)).baseline_similarity := by
  have h := fusion_step_of_verify imgPlain imgPlain (some [3/10]) (some [1]) false (1/2)
    (by norm_num [verify, npDot, dotProd])
  simpa using h

/-- C2.  On every successful result, the verdict is exactly the comparison
of the decision score against the threshold, where the decision score is the
quality-weighted similarity when weighting is enabled and the baseline
similarity when it is disabled. -/
theorem verdict_of_verify (imgA imgB : GrayImage) (embA embB : Option (List ℚ))
    (w : Bool) (t : ℚ)
    (h : (verify imgA imgB embA embB w t).error = false) :
    (verify imgA imgB embA embB w t).verdict =
      decide (t <
        (if w then (verify imgA imgB embA embB w t).quality_weighted_similarity
         else (verify imgA imgB embA embB w t).baseline_similarity)) := by
  cases embA with
  | none => simp [verify] at h
  | some ea =>
    cases embB with
    | none => simp [verify] at h
    | some eb =>
      cases hdot : npDot ea eb with
      | error e => simp [verify, hdot] at h
      | ok b => cases w <;> simp [verify, hdot, fuse]

/-- C2 witness: at the concrete request with baseline 3/10 and threshold 1/2
the verdict is the comparison 1/2 < 3/10, that is, false. -/
theorem verdict_of_verify_witness :
    (verify imgPlain imgPlain (some [3/10]) (some [1]) false (1/2)).verdict = false := by
  have h := verdict_of_verify imgPlain imgPlain (some [3/10]) (some [1]) false (1/2)
    (by norm_num [verify, npDot, dotProd])
  rw [h]
  norm_num [verify, npDot, dotProd, fuse]

/-- C3.  On every successful result the confidence is the decision score
divided by the threshold, scaled by 100 and clamped to [0, 100], when the
decision score is positive (a zero threshold makes the float division yield
+infinity, which the clamp maps to 100), and 0 when the decision score is
nonpositive; moreover the concrete scenario with weighting disabled,
baseline 3/10 and threshold 1/2 yields verdict false and confidence 60. -/
theorem confidence_of_verify (imgA imgB : GrayImage) (embA embB : Option (List ℚ))
    (w : Bool) (t : ℚ)
    (h : (verify imgA imgB embA embB w t).error = false) :
    ((0 < (if w then (verify imgA imgB embA embB w t).quality_weighted_similarity
           else (verify imgA imgB embA embB w t).baseline_similarity) →
        (verify imgA imgB embA embB w t).confidence =
          (if t = 0 then 100
           else min 100 (max 0
             ((if w then (verify imgA imgB embA embB w t).quality_weighted_similarity
               else (verify imgA imgB embA embB w t).baseline_similarity) / t * 100)))) ∧
      ((if w then (verify imgA imgB embA embB w t).quality_weighted_similarity
        else (verify imgA imgB embA embB w t).baseline_similarity) ≤ 0 →
        (verify imgA imgB embA embB w t).confidence = 0)) ∧
    ((verify imgPlain imgPlain (some [3/10]) (some [1]) false (1/2)).verdict = false ∧
     (verify imgPlain imgPlain (some [3/10]) (some [1]) false (1/2)).confidence = 60) := by
  constructor
  · cases embA with
    | none => simp [verify] at h
    | some ea =>
      cases embB with
      | none => simp [verify] at h
      | some eb =>
        cases hdot : npDot ea eb with
        | error e => simp [verify, hdot] at h
        | ok b =>
          constructor
          · intro hpos
            cases w <;>
              simp only [verify, hdot, Bool.false_eq_true, if_false, if_true,
                reduceCtorEq] at hpos ⊢ <;>
              rw [if_pos hpos] <;>
              by_cases ht : t = 0 <;>
              simp [ratioTimes100, clampConfidence, ht]
          · intro hnonpos
            cases w <;>
              simp only [verify, hdot, Bool.false_eq_true, if_false, if_true,
                reduceCtorEq] at hnonpos ⊢ <;>
              rw [if_neg (by exact not_lt.mpr hnonpos)] <;>
              simp [clampConfidence]
  · constructor
    · norm_num [verify, npDot, dotProd, compute_image_quality, listMean, listVar,
        imgPlain, fuse, ratioTimes100, clampConfidence]
    · norm_num [verify, npDot, dotProd, compute_image_quality, listMean, listVar,
        imgPlain, fuse, ratioTimes100, clampConfidence]

/-- C3 witness: the scenario instance extracted by applying the confidence
theorem at concrete inputs with weighting disabled, baseline 3/10 and
threshold 1/2. -/
theorem confidence_of_verify_witness :
    (verify imgPlain imgPlain (some [3/10]) (some [1]) false (1/2)).verdict = false ∧
    (verify imgPlain imgPlain (some [3/10]) (some [1]) false (1/2)).confidence = 60 :=
  (confidence_of_verify imgPlain imgPlain (some [3/10]) (some [1]) false (1/2)
    (by norm_num [verify, npDot, dotProd])).2

/-- C7 counterexample: when no face is detected in either image, the error
message is the very message of the case where only image A fails — the
three failure cases are not distinguished. -/
theorem noFace_cases_not_distinguished :
    (verify imgPlain imgPlain none none true (3/4)).error_message =
      (verify imgPlain imgPlain none (some [1]) true (3/4)).error_message ∧
    (verify imgPlain imgPlain none none true (3/4)).error_message =
      "❌ No face detected in Image A" := by
  constructor <;> norm_num [verify, noFaceMessage]

/-- C7 amended: a failed detection yields an error result whose message
names Image A whenever face A was not detected (even when face B also was
not), and names Image B when face A was detected and face B was not; the
both-failed case is reported with the Image A message, not separately. -/
theorem noFaceMessage_of_verify (imgA imgB : GrayImage) (embB : Option (List ℚ))
    (ea : List ℚ) (w : Bool) (t : ℚ) :
    ((verify imgA imgB none embB w t).error = true ∧
     (verify imgA imgB none embB w t).error_message =
       "❌ No face detected in Image A") ∧
    ((verify imgA imgB (some ea) none w t).error = true ∧
     (verify imgA imgB (some ea) none w t).error_message =
       "❌ No face detected in Image B") := by
  cases embB <;> simp [verify, noFaceMessage]

/-- C4.  Evaluation of `verify` at a concrete pair of images: image A has
sharpness 1 and brightness 1, image B has sharpness 0 and brightness 1/5.
The overall quality stored for image A is `sharp_a * bright_b = 1/5`, the
product with the other image's brightness, which differs from the claimed
clamped convex combination `0.5 * sharp_a + 0.5 * bright_a = 1` of image A's
own metrics. -/
theorem quality_overall_is_cross_product :
    (verify imgSharpBright imgDullDark (some [1]) (some [1]) true (3/4)).quality_a.overall
      = 1/5 ∧
    (verify imgSharpBright imgDullDark (some [1]) (some [1]) true (3/4)).quality_a.sharpness
      = 1 ∧
    (verify imgSharpBright imgDullDark (some [1]) (some [1]) true (3/4)).quality_a.brightness
      = 1 ∧
    (1 : ℚ)/5 ≠ 0.5 * 1 + 0.5 * 1 := by
  refine ⟨?_, ?_, ?_, by norm_num⟩ <;>
    norm_num [verify, npDot, dotProd, compute_image_quality, listMean, listVar,
      imgSharpBright, imgDullDark]

/-- C5.  Evaluation of `verify` at two requests that agree on image A (same
buffer, same embedding outcome) but differ on image B: the reported
quality record for image A differs between the two runs, because its overall
field is `sharp_a * bright_b` and so depends on image B's brightness. -/
theorem quality_a_depends_on_image_b :
    (verify imgSharpBright imgDullDark (some [1]) (some [1]) true (3/4)).quality_a ≠
      (verify imgSharpBright imgBrightFlat (some [1]) (some [1]) true (3/4)).quality_a := by
  intro h
  have h2 := congrArg QualityRecord.overall h
  norm_num [verify, npDot, dotProd, compute_image_quality, listMean, listVar,
    imgSharpBright, imgDullDark, imgBrightFlat] at h2

/-- C6 counterexample: a one-pixel grayscale buffer with intensity 510 (as a
16-bit image can produce) makes the brightness field of
`compute_image_quality` equal to 2, outside [0, 1]. -/
theorem brightness_exceeds_one :
    (compute_image_quality { gray := [510], lap := [0], cvFault := false }).2 = 2 ∧
    ¬ ((compute_image_quality { gray := [510], lap := [0], cvFault := false }).2 ≤ 1) := by
  constructor <;> norm_num [compute_image_quality, listMean, listVar]

/-- C6 amended: the sharpness of `compute_image_quality` always lies in
[0, 1], and its brightness lies in [0, 1] provided the grayscale intensities
lie in [0, 255] (8-bit pixel range); for `compute_quality_metrics`, sharpness
and the clamped overall quality always lie in [0, 1], brightness lies in
[0, 1] under the same 8-bit pixel bound, and contrast lies in [0, 1]
provided the reported standard deviation lies in [0, 255]. -/
theorem quality_fields_bounds (img : GrayImage) (gray lap : List ℚ) (std : ℚ)
    (f : Bool)
    (hpix : ∀ x ∈ img.gray, 0 ≤ x ∧ x ≤ 255)
    (hgray : ∀ x ∈ gray, 0 ≤ x ∧ x ≤ 255)
    (hstd : 0 ≤ std ∧ std ≤ 255) :
    (0 ≤ (compute_image_quality img).1 ∧ (compute_image_quality img).1 ≤ 1) ∧
    (0 ≤ (compute_image_quality img).2 ∧ (compute_image_quality img).2 ≤ 1) ∧
    (0 ≤ (compute_quality_metrics gray lap std f).sharpness ∧
      (compute_quality_metrics gray lap std f).sharpness ≤ 1) ∧
    (0 ≤ (compute_quality_metrics gray lap std f).brightness ∧
      (compute_quality_metrics gray lap std f).brightness ≤ 1) ∧
    (0 ≤ (compute_quality_metrics gray lap std f).contrast ∧
      (compute_quality_metrics gray lap std f).contrast ≤ 1) ∧
    (0 ≤ (compute_quality_metrics gray lap std f).overall_quality ∧
      (compute_quality_metrics gray lap std f).overall_quality ≤ 1) := by
  have sharp_bounds : ∀ xs : List ℚ, 0 ≤ min 1 (listVar xs / 1000) ∧
      min 1 (listVar xs / 1000) ≤ 1 := by
    intro xs
    refine ⟨le_min zero_le_one ?_, min_le_left _ _⟩
    exact div_nonneg (listVar_nonneg xs) (by norm_num)
  have bright_bounds : ∀ xs : List ℚ, (∀ x ∈ xs, 0 ≤ x ∧ x ≤ 255) →
      0 ≤ listMean xs / 255 ∧ listMean xs / 255 ≤ 1 := by
    intro xs hb
    constructor
    · exact div_nonneg (listMean_nonneg xs fun x hx => (hb x hx).1) (by norm_num)
    · rw [div_le_one (by norm_num)]
      exact listMean_le xs 255 (by norm_num) fun x hx => (hb x hx).2
  refine ⟨?_, ?_, ?_, ?_, ?_, ?_⟩
  · rcases hf : img.cvFault with _ | _ <;>
      simp [compute_image_quality, hf, sharp_bounds img.lap]
  · rcases hf : img.cvFault with _ | _ <;>
      simp [compute_image_quality, hf] <;> norm_num
    exact bright_bounds img.gray hpix
  · rcases f with _ | _ <;>
      simp [compute_quality_metrics, sharp_bounds lap]
  · rcases f with _ | _ <;> simp [compute_quality_metrics] <;> norm_num
    exact bright_bounds gray hgray
  · rcases f with _ | _ <;> simp [compute_quality_metrics]
    constructor
    · exact div_nonneg hstd.1 (by norm_num)
    · rw [div_le_one (by norm_num)]
      exact hstd.2
  · rcases f with _ | _ <;> simp [compute_quality_metrics]

/-- C6 amended witness: the bounds at a concrete image and concrete metric
inputs. -/
theorem quality_fields_bounds_witness :
    (0 ≤ (compute_image_quality imgPlain).1 ∧ (compute_image_quality imgPlain).1 ≤ 1) ∧
    (0 ≤ (compute_image_quality imgPlain).2 ∧ (compute_image_quality imgPlain).2 ≤ 1) ∧
    (0 ≤ (compute_quality_metrics [100] [0] 50 false).sharpness ∧
      (compute_quality_metrics [100] [0] 50 false).sharpness ≤ 1) ∧
    (0 ≤ (compute_quality_metrics [100] [0] 50 false).brightness ∧
      (compute_quality_metrics [100] [0] 50 false).brightness ≤ 1) ∧
    (0 ≤ (compute_quality_metrics [100] [0] 50 false).contrast ∧
      (compute_quality_metrics [100] [0] 50 false).contrast ≤ 1) ∧
    (0 ≤ (compute_quality_metrics [100] [0] 50 false).overall_quality ∧
      (compute_quality_metrics [100] [0] 50 false).overall_quality ≤ 1) :=
  quality_fields_bounds imgPlain [100] [0] 50 false
    (by norm_num [imgPlain]) (by norm_num) (by norm_num)

/-- C8.  Every error result of `verify` carries a nonempty (descriptive)
message, and an exception raised inside the try block by the embedding
comparison (the `np.dot` shape check) is caught at the engine boundary and
converted into an error result whose message is the fixed prefix followed
by the exception text — `verify` itself is a total function and never
raises. -/
theorem verify_never_raises (imgA imgB : GrayImage) (embA embB : Option (List ℚ))
    (w : Bool) (t : ℚ) :
    ((verify imgA imgB embA embB w t).error = true →
      (verify imgA imgB embA embB w t).error_message ≠ "") ∧
    (∀ ea eb e, embA = some ea → embB = some eb →
      npDot ea eb = Except.error e →
      (verify imgA imgB embA embB w t).error = true ∧
      (verify imgA imgB embA embB w t).error_message =
        "Error during verification: " ++ e) := by
  constructor
  · intro herr
    cases embA with
    | none =>
      cases embB <;> simp [verify, noFaceMessage]
    | some ea =>
      cases embB with
      | none =>
        simp [verify, noFaceMessage]
      | some eb =>
        cases hdot : npDot ea eb with
        | error e =>
          simp only [verify, hdot]
          intro habs
          have hlen := congrArg String.length habs
          rw [String.length_append] at hlen
          have : ("Error during verification: ").length = 27 := rfl
          rw [this] at hlen
          simp at hlen
        | ok b => simp [verify, hdot] at herr
  · intro ea eb e hA hB hdot
    subst hA
    subst hB
    simp [verify, hdot]

/-- C8 witness: a dimension mismatch between the two embeddings at a
concrete request is converted into an error result with the descriptive
message. -/
theorem verify_never_raises_witness :
    (verify imgPlain imgPlain (some [1]) (some [1, 0]) true 1).error = true ∧
    (verify imgPlain imgPlain (some [1]) (some [1, 0]) true 1).error_message =
      "Error during verification: " ++ "shapes not aligned" :=
  (verify_never_raises imgPlain imgPlain (some [1]) (some [1, 0]) true 1).2
    [1] [1, 0] "shapes not aligned" rfl rfl (by norm_num [npDot])

/-- C9 counterexample: a request in which both faces are detected but the
embeddings have mismatched dimensions produces an error result whose
quality records are already populated (image A's stored sharpness is 1,
not the neutral default 0), because the except branch returns the results
dict as mutated before the failure. -/
theorem error_result_with_populated_quality :
    (verify imgSharpBright imgDullDark (some [1]) (some [1, 0]) true (3/4)).error = true ∧
    (verify imgSharpBright imgDullDark (some [1]) (some [1, 0]) true (3/4)).quality_a.sharpness = 1 ∧
    (verify imgSharpBright imgDullDark (some [1]) (some [1, 0]) true (3/4)).quality_a ≠ defaultQuality := by
  refine ⟨?_, ?_, ?_⟩
  · norm_num [verify, npDot, dotProd]
  · norm_num [verify, npDot, dotProd, compute_image_quality, listMean, listVar,
      imgSharpBright, imgDullDark]
  · intro h
    have h2 := congrArg QualityRecord.sharpness h
    norm_num [verify, npDot, dotProd, compute_image_quality, listMean, listVar,
      imgSharpBright, imgDullDark, defaultQuality] at h2

/-- C9 amended: an error result produced by the face-detection check carries
only the neutral defaults besides the error flag and message: verdict false,
confidence 0, both similarities 0 and both quality records at their
defaults.  (An error result produced by the catch-all handler instead
retains the fields populated before the failure.) -/
theorem detection_error_carries_defaults (imgA imgB : GrayImage)
    (embA embB : Option (List ℚ)) (w : Bool) (t : ℚ)
    (h : embA = none ∨ embB = none) :
    verify imgA imgB embA embB w t =
      { baseResults with
        error := true,
        error_message := noFaceMessage embA.isSome embB.isSome } := by
  rcases h with h | h
  · subst h
    cases embB <;> simp [verify]
  · subst h
    cases embA <;> simp [verify]

/-- C9 amended witness: the default-carrying error result at a concrete
request in which image A has no detectable face. -/
theorem detection_error_carries_defaults_witness :
    verify imgPlain imgPlain none (some [1]) true (3/4) =
      { baseResults with
        error := true,
        error_message := "❌ No face detected in Image A" } := by
  have h := detection_error_carries_defaults imgPlain imgPlain none (some [1])
    true (3/4) (Or.inl rfl)
  simpa [noFaceMessage] using h

/-- C10 counterexample: at threshold 0 with both faces detected and a
positive decision score (baseline 1/2, weighting disabled), `verify`
returns a successful result — not an error as the claim states. -/
theorem threshold_zero_is_not_an_error :
    (verify imgPlain imgPlain (some [1/2]) (some [1]) false 0).error = false := by
  norm_num [verify, npDot, dotProd]

/-- C10 amended: at threshold 0, when both faces are detected, the
embeddings have matching dimensions and the decision score is strictly
positive, `verify` returns a successful result with verdict true and
confidence 100: the numpy float division of the positive decision score by
the zero threshold yields +infinity (with a warning, not an exception), and
the clamp maps +infinity to 100. -/
theorem threshold_zero_gives_full_confidence (imgA imgB : GrayImage)
    (ea eb : List ℚ) (b : ℚ) (w : Bool)
    (hdot : npDot ea eb = Except.ok b)
    (hds : 0 < fuse b (qualityOverallA imgA imgB) (qualityOverallB imgB) w) :
    (verify imgA imgB (some ea) (some eb) w 0).error = false ∧
    (verify imgA imgB (some ea) (some eb) w 0).verdict = true ∧
    (verify imgA imgB (some ea) (some eb) w 0).confidence = 100 := by
  cases w with
  | false =>
    simp only [fuse, Bool.false_eq_true, if_false] at hds
    simp [verify, hdot, hds, ratioTimes100, clampConfidence, fuse]
  | true =>
    simp only [fuse, if_true] at hds
    simp only [verify, hdot, fuse, qualityOverallA, qualityOverallB] at hds ⊢
    simp [hds, ratioTimes100, clampConfidence]

/-- C10 amended witness: the successful full-confidence result at the
concrete request with baseline 1/2, weighting disabled and threshold 0. -/
theorem threshold_zero_gives_full_confidence_witness :
    (verify imgPlain imgPlain (some [1/2]) (some [1]) false 0).error = false ∧
    (verify imgPlain imgPlain (some [1/2]) (some [1]) false 0).verdict = true ∧
    (verify imgPlain imgPlain (some [1/2]) (some [1]) false 0).confidence = 100 :=
  threshold_zero_gives_full_confidence imgPlain imgPlain [1/2] [1] (1/2) false
    (by norm_num [npDot, dotProd]) (by norm_num [fuse])
